import Mathlib

/-!
Verification of the `typescript-ai-agent` repository against its specification.

The repository contains two near-identical LangGraph agents — an Anthropic one
in `src/backend/agent.ts` and a Gemini one in `src/unnamed/part_000` — plus a
seeding script `src/backend/database-seed.ts`.  The definitions below are a
shallow embedding of those files: the message/state data model, the routing
function `shouldContinue`, the prompt assembly of `callModel`, the Gemini
model-selection and thought-signature patch, the `principle_lookup` tool
handler, and the `GeminiEmbeddings` class.  The LangGraph loop executor and the
MongoDB checkpointer are library code not present in the repository; where a
claim depends on them, the corresponding definition is modelled from the
specification and marked as such in its doc comment.
-/

namespace TsAgent

/-- Message roles as LangChain exposes them (`_getType()` values are given by
`getType` below).  `system` appears only in assembled prompts. -/
inductive Role where
  | user
  | agent
  | tool
  | system
deriving DecidableEq, Repr

/-- Nested Gemini metadata carried on a tool call:
`extra_content.google.thought_signature` in `src/unnamed/part_000`.
`none` models an absent (nullish) field; `some ""` is a present empty string. -/
structure GoogleMeta where
  thought_signature : Option String
deriving DecidableEq, Repr

/-- The `extra_content` object of a tool call, as typed in the cast at
`src/unnamed/part_000` lines 164-166. -/
structure ExtraContent where
  google : Option GoogleMeta
deriving DecidableEq, Repr

/-- A ToolCall as emitted by the model: name, raw arguments, and the optional
provider-specific `extra_content`. -/
structure ToolCall where
  name : String
  args : String
  extra_content : Option ExtraContent
deriving DecidableEq, Repr

/-- A conversation message.  `tool_calls` is `none` when the field is absent
(e.g. human/tool messages) and `some l` when present, mirroring the optional
`tool_calls` property of `AIMessage`. -/
structure Message where
  role : Role
  content : String
  tool_calls : Option (List ToolCall)
deriving DecidableEq, Repr

/-- `_getType()` of a LangChain message. -/
def getType (m : Message) : String :=
  match m.role with
  | .user => "human"
  | .agent => "ai"
  | .tool => "tool"
  | .system => "system"

/-- The graph state of `Annotation.Root`: just the `messages` channel. -/
structure GraphState where
  messages : List Message
deriving DecidableEq, Repr

/-- The reducer of the `messages` annotation: `(x, y) => x.concat(y)`
(`src/backend/agent.ts` line 36). -/
def messagesReducer (x y : List Message) : List Message := x ++ y

/-- Applying a node's returned update `{ messages: [...] }` to the state runs
the channel reducer. -/
def applyUpdate (st : GraphState) (update : List Message) : GraphState :=
  { messages := messagesReducer st.messages update }

/-- JS truthiness of `lastMessage.tool_calls?.length`: true exactly when the
field is present and the list is non-empty. -/
def hasPendingToolCalls (m : Message) : Bool :=
  match m.tool_calls with
  | some tcs => !tcs.isEmpty
  | none => false

/-- `shouldContinue` (`src/backend/agent.ts` lines 99-108): routes on the last
message of the history.  The JS code reads `messages[messages.length - 1]` and
dereferences it, so an empty history is a crash — modelled as `none`. -/
def shouldContinue (messages : List Message) : Option String :=
  match messages.getLast? with
  | none => none
  | some last => some (if hasPendingToolCalls last then "tools" else "__end__")

/-- The state graph wiring of step 8 of `callAgent`: nodes, unconditional
edges, and the conditional router attached to `agent`. -/
structure Workflow where
  nodes : List String
  edges : List (String × String)
  conditionalRouter : List Message → Option String

/-- The concrete workflow built in `src/backend/agent.ts` lines 142-147 (and
identically in `src/unnamed/part_000` lines 178-183). -/
def workflow : Workflow :=
  { nodes := ["agent", "tools"]
    edges := [("__start__", "agent"), ("tools", "agent")]
    conditionalRouter := shouldContinue }

end TsAgent

namespace TsAgent

/-- C3 sanity example: a lone agent message with one tool call routes to
tools. -/
example :
    shouldContinue [⟨.agent, "", some [⟨"principle_lookup", "q", none⟩]⟩] =
      some "tools" := by decide

example : shouldContinue [⟨.agent, "hi", none⟩] = some "__end__" := by decide

example : shouldContinue [⟨.agent, "hi", some []⟩] = some "__end__" := by decide

end TsAgent

namespace TsAgent

/-- **C3.** After a model response is appended, the router sends the run to the
`tools` node iff that response carries one or more ToolCalls, and to the
terminal `__end__` pseudo-node otherwise; the entry edge of the graph goes to
`agent`. -/
theorem c3_router_routes_on_tool_calls :
    (("__start__", "agent") ∈ workflow.edges) ∧
    ∀ (msgs : List Message) (m : Message),
      (workflow.conditionalRouter (msgs ++ [m]) = some "tools" ↔
        ∃ tcs, m.tool_calls = some tcs ∧ tcs ≠ []) ∧
      (workflow.conditionalRouter (msgs ++ [m]) = some "__end__" ↔
        ¬ ∃ tcs, m.tool_calls = some tcs ∧ tcs ≠ []) := by
  refine ⟨by simp [workflow], ?_⟩
  intro msgs m
  have hlast : (msgs ++ [m]).getLast? = some m := by
    simp [List.getLast?_append]
  have hroute : workflow.conditionalRouter (msgs ++ [m]) =
      some (if hasPendingToolCalls m then "tools" else "__end__") := by
    simp [workflow, shouldContinue, hlast]
  have hpend : hasPendingToolCalls m = true ↔
      ∃ tcs, m.tool_calls = some tcs ∧ tcs ≠ [] := by
    unfold hasPendingToolCalls
    cases h : m.tool_calls with
    | none => simp
    | some tcs =>
        simp only [Bool.not_eq_true']
        constructor
        · intro he
          exact ⟨tcs, rfl, by simpa [List.isEmpty_iff] using he⟩
        · rintro ⟨tcs2, he, hne⟩
          cases he
          simpa [List.isEmpty_iff] using hne
  rw [hroute]
  constructor
  · rw [← hpend]
    by_cases h : hasPendingToolCalls m <;> simp [h]
  · rw [← hpend]
    by_cases h : hasPendingToolCalls m <;> simp [h]

end TsAgent

namespace TsAgent

/-- **C7.** Each node update goes through the `messages` reducer, which
concatenates the update onto the end of the history: the old history is a
prefix of the new one and every previously appended message keeps its value
and position. -/
theorem c7_messages_append_only :
    ∀ (st : GraphState) (update : List Message),
      st.messages <+: (applyUpdate st update).messages ∧
      ∀ i : Nat, i < st.messages.length →
        (applyUpdate st update).messages[i]? = st.messages[i]? := by
  intro st update
  refine ⟨⟨update, rfl⟩, ?_⟩
  intro i hi
  simp only [applyUpdate, messagesReducer]
  exact List.getElem?_append_left hi

/-- Witness for C7 at a concrete state and index. -/
theorem c7_messages_append_only_witness :
    (0 : Nat) < (GraphState.mk [⟨.user, "hi", none⟩]).messages.length ∧
      (applyUpdate ⟨[⟨.user, "hi", none⟩]⟩ [⟨.agent, "yo", none⟩]).messages[0]? =
        (GraphState.mk [⟨.user, "hi", none⟩]).messages[0]? :=
  ⟨by decide,
    (c7_messages_append_only ⟨[⟨.user, "hi", none⟩]⟩ [⟨.agent, "yo", none⟩]).2 0
      (by decide)⟩

end TsAgent

namespace TsAgent

/-- The system template of `callModel` with its three placeholders
interpolated, exactly as in `src/backend/agent.ts` lines 112-124 and
`src/unnamed/part_000` lines 125-137. -/
def systemTemplateRendered (tool_names system_message time : String) : String :=
  "You are a helpful AI assistant, specialized in frontend design principles.\nUse the provided tools if needed to answer the user's query.\nIf you or any other assistant have the final answer, prefix your response with \"FINAL ANSWER\" so the team knows to stop.\nYou have access to the following tools: "
    ++ tool_names ++ ".\n" ++ system_message ++ "\nCurrent time: " ++ time ++ "."

/-- `tools.map((t) => t.name)` — the single registered tool. -/
def toolNames : List String := ["principle_lookup"]

/-- `tools.map((t) => t.name).join(", ")`. -/
def joinedToolNames : String := String.intercalate ", " toolNames

/-- `prompt.formatMessages(...)` of `callModel`: the rendered system message
followed by the conversation messages substituted for the
`MessagesPlaceholder`.  `time` is the value of `new Date().toISOString()` read
by `callModel` at invocation time. -/
def formatPrompt (system_message time tool_names : String)
    (messages : List Message) : List Message :=
  ⟨.system, systemTemplateRendered tool_names system_message time, none⟩ :: messages

/-- The concrete `system_message` value passed by `callModel`. -/
def chatbotSystemMessage : String := "You are a helpful Frontend Chatbot Agent."

set_option maxRecDepth 16384 in
/-- **C4 counterexample.** Two invocations of the prompt assembler with the
same template, the same injected context and the same (empty) history, but at
two different clock readings, produce different model-ready requests: the
assembled request also depends on `new Date().toISOString()`. -/
theorem c4_counterexample :
    formatPrompt chatbotSystemMessage "2026-01-01T00:00:00.000Z" joinedToolNames [] ≠
      formatPrompt chatbotSystemMessage "2026-01-02T00:00:00.000Z" joinedToolNames [] := by
  decide

/-- **C4 (amended).** The prompt assembler is a pure function once the clock
reading is counted among its inputs: any two invocations agreeing on system
message, time, tool names and history yield the same request, and the request
is the rendered system message followed by the history unchanged. -/
theorem c4_assembler_pure_given_time (sm₁ sm₂ t₁ t₂ names₁ names₂ : String)
    (msgs₁ msgs₂ : List Message)
    (hsm : sm₁ = sm₂) (ht : t₁ = t₂) (hn : names₁ = names₂) (hm : msgs₁ = msgs₂) :
    formatPrompt sm₁ t₁ names₁ msgs₁ = formatPrompt sm₂ t₂ names₂ msgs₂ ∧
      (formatPrompt sm₁ t₁ names₁ msgs₁).drop 1 = msgs₁ := by
  subst hsm ht hn hm
  exact ⟨rfl, rfl⟩

/-- Witness for C4 (amended) at concrete inputs. -/
theorem c4_assembler_pure_given_time_witness :
    formatPrompt chatbotSystemMessage "t" joinedToolNames [] =
        formatPrompt chatbotSystemMessage "t" joinedToolNames [] ∧
      (formatPrompt chatbotSystemMessage "t" joinedToolNames []).drop 1 = [] :=
  c4_assembler_pure_given_time chatbotSystemMessage chatbotSystemMessage "t" "t"
    joinedToolNames joinedToolNames [] [] rfl rfl rfl rfl

end TsAgent

namespace TsAgent

/-- `text.replace(/\n/g, " ")` of `GeminiEmbeddings` — every newline character
becomes a space (texts are modelled as character lists). -/
def normalizeNewlines (text : List Char) : List Char :=
  text.map fun c => if c = '\n' then ' ' else c

/-- `GeminiEmbeddings.embedQuery` (`src/backend/database-seed.ts` lines 56-67):
normalizes the text and hands it to the provider's `embedContent`. -/
def embedQuery {α : Type} (embedContent : List Char → α) (text : List Char) : α :=
  embedContent (normalizeNewlines text)

/-- One entry of the `requests` array built by `embedDocuments`. -/
structure EmbedRequest where
  role : String
  text : List Char
deriving DecidableEq, Repr

/-- The `requests` array of `GeminiEmbeddings.embedDocuments`
(`src/backend/database-seed.ts` lines 69-75): each document is normalized the
same way before batching. -/
def embedDocumentsRequests (documents : List (List Char)) : List EmbedRequest :=
  documents.map fun doc => ⟨"user", normalizeNewlines doc⟩

/-- `GeminiEmbeddings.embedDocuments`: builds the requests and hands them to
the provider's `batchEmbedContents`. -/
def embedDocuments {α : Type} (batchEmbedContents : List EmbedRequest → α)
    (documents : List (List Char)) : α :=
  batchEmbedContents (embedDocumentsRequests documents)

lemma normalizeNewlines_idem (t : List Char) :
    normalizeNewlines (normalizeNewlines t) = normalizeNewlines t := by
  induction t with
  | nil => rfl
  | cons c cs ih =>
      simp only [normalizeNewlines, List.map_cons, List.map_map] at ih ⊢
      refine congrArg₂ _ ?_ ih
      by_cases h : c = '\n' <;> simp [h]

/-- **C9.** `embedQuery` is invariant under newline-normalizing its input (it
issues to the provider exactly what the normalized text would), and
`embedDocuments` normalizes each document element-wise before batching, so it
is likewise invariant under element-wise normalization. -/
theorem c9_embeddings_newline_normalization {α β : Type}
    (embedContent : List Char → α) (batchEmbedContents : List EmbedRequest → β)
    (text : List Char) (documents : List (List Char)) :
    embedQuery embedContent text = embedQuery embedContent (normalizeNewlines text) ∧
      embedDocuments batchEmbedContents documents =
        embedDocuments batchEmbedContents (documents.map normalizeNewlines) ∧
      embedDocumentsRequests documents =
        documents.map fun doc => ⟨"user", normalizeNewlines doc⟩ := by
  refine ⟨?_, ?_, rfl⟩
  · unfold embedQuery
    rw [normalizeNewlines_idem]
  · unfold embedDocuments embedDocumentsRequests
    rw [List.map_map]
    congr 1
    apply List.map_congr_left
    intro d _
    simp [Function.comp, normalizeNewlines_idem]

end TsAgent

namespace TsAgent

/-- One call made by the `principle_lookup` handler to the vector store
(`vectorStore.similaritySearchWithScore(query, n)`). -/
structure StoreCall where
  query : String
  n : Nat
deriving DecidableEq, Repr

/-- The `principle_lookup` tool handler (`src/backend/agent.ts` lines 41-62,
`src/unnamed/part_000` lines 47-68): destructures `{ query, n = 3 }` and
performs exactly one `similaritySearchWithScore(query, n)` — unconditionally.
The second component of the result records the store calls the handler
performed. -/
def principleLookupHandler {α : Type} (similaritySearchWithScore : String → Nat → α)
    (query : String) (n : Option Nat) : α × List StoreCall :=
  let k := n.getD 3
  (similaritySearchWithScore query k, [⟨query, k⟩])

/-- **C2 counterexample.** On the empty query the handler still performs a
vector-store similarity search (which in turn embeds the query): there is no
empty-query short-circuit in the code, so the store-call trace is not empty. -/
theorem c2_counterexample :
    (principleLookupHandler (fun _ _ => (0 : Nat)) "" none).2 ≠ [] := by
  decide

/-- **C2 (amended).** For every query — the empty string included — the
handler performs exactly one similarity search with the query and the
requested `n` (defaulting to 3), and returns that search's result. -/
theorem c2_handler_always_queries_store {α : Type}
    (similaritySearchWithScore : String → Nat → α) (query : String) (n : Option Nat) :
    (principleLookupHandler similaritySearchWithScore query n).2 =
        [⟨query, n.getD 3⟩] ∧
      (principleLookupHandler similaritySearchWithScore query n).1 =
        similaritySearchWithScore query (n.getD 3) :=
  ⟨rfl, rfl⟩

end TsAgent

namespace TsAgent

/-- `state.messages.some((m) => m._getType?.() === "tool")` in the Gemini
`callModel` (`src/unnamed/part_000` lines 147-149). -/
def hasToolResult (messages : List Message) : Bool :=
  messages.any fun m => getType m == "tool"

/-- Which of the two bound models `callModel` invokes. -/
inductive ModelChoice where
  | withTools
  | noTools
deriving DecidableEq, Repr

/-- `hasToolResult ? modelNoTools : modelWithTools`
(`src/unnamed/part_000` line 152). -/
def chooseModel (messages : List Message) : ModelChoice :=
  if hasToolResult messages then .noTools else .withTools

/-- The specification's trigger condition: the conversation's most recent
message is a tool-role response (this is the state right after a `TOOLS`
phase). -/
def lastMessageIsToolResponse (messages : List Message) : Bool :=
  match messages.getLast? with
  | some m => getType m == "tool"
  | none => false

lemma getType_eq_tool_iff (m : Message) : (getType m == "tool") = true ↔ m.role = .tool := by
  cases m with
  | mk role content tool_calls => cases role <;> simp [getType]

/-- **C6 counterexample.** On a resumed thread whose earlier turn used a tool
— history user, agent(tool call), tool, agent, user — the most recent messages
contain no tool-role response, yet the code still suppresses tool calling,
because it scans the whole history with `some(...)`.  So suppression does not
apply exactly when the most recent messages include a tool response. -/
theorem c6_counterexample :
    ¬ (chooseModel
        [⟨.user, "q1", none⟩, ⟨.agent, "", some [⟨"principle_lookup", "q", none⟩]⟩,
          ⟨.tool, "result", none⟩, ⟨.agent, "answer", none⟩, ⟨.user, "q2", none⟩] =
          .noTools ↔
      lastMessageIsToolResponse
        [⟨.user, "q1", none⟩, ⟨.agent, "", some [⟨"principle_lookup", "q", none⟩]⟩,
          ⟨.tool, "result", none⟩, ⟨.agent, "answer", none⟩, ⟨.user, "q2", none⟩] = true) := by
  decide

/-- **C6 (amended).** Tool suppression is an unconditional policy (no
configuration toggle exists in the code), and it applies exactly when *any*
message of the whole history is a tool-role response. -/
theorem c6_no_tools_iff_any_tool_message (messages : List Message) :
    chooseModel messages = .noTools ↔ ∃ m ∈ messages, m.role = .tool := by
  unfold chooseModel
  by_cases h : hasToolResult messages
  · simp only [h, if_true, true_iff]
    obtain ⟨m, hm, hb⟩ := List.any_eq_true.mp h
    exact ⟨m, hm, (getType_eq_tool_iff m).mp hb⟩
  · simp only [h, if_false]
    constructor
    · intro hc
      cases hc
    · rintro ⟨m, hm, hrole⟩
      exact absurd (List.any_eq_true.mpr ⟨m, hm, (getType_eq_tool_iff m).mpr hrole⟩) h

end TsAgent

namespace TsAgent

/-- The dummy signature the Gemini docs allow when none is available. -/
def dummyThoughtSignature : String := "skip_thought_signature_validator"

/-- The three `??=` assignments of `src/unnamed/part_000` lines 167-170
applied to the first tool call: materialize `extra_content` and `google` when
nullish, then set `thought_signature` only when nullish. -/
def patchToolCall (tc : ToolCall) : ToolCall :=
  let ec := tc.extra_content.getD ⟨none⟩
  let g := ec.google.getD ⟨none⟩
  let sig := g.thought_signature.getD dummyThoughtSignature
  { tc with extra_content := some (ExtraContent.mk (some (GoogleMeta.mk (some sig)))) }

/-- The `if (maybeToolCalls?.length)` block of the Gemini `callModel`
(`src/unnamed/part_000` lines 162-171): patch the first tool call, leave
everything else as is. -/
def patchThoughtSignature (result : Message) : Message :=
  match result.tool_calls with
  | some (first :: rest) => { result with tool_calls := some (patchToolCall first :: rest) }
  | _ => result

/-- The `extra_content.google.thought_signature` of a message's first tool
call: `none` when there is no tool call, otherwise `some` of the (optional)
field value. -/
def firstToolCallSignature (m : Message) : Option (Option String) :=
  match m.tool_calls with
  | some (first :: _) =>
      some ((first.extra_content.getD ⟨none⟩).google.getD ⟨none⟩).thought_signature
  | _ => none

/-- **C10 counterexample.** A model result whose first tool call carries a
*present but empty* `thought_signature` (`""` is not nullish, so `??=` leaves
it alone): after the patch the signature is still the empty string, so the
field is not non-empty. -/
theorem c10_counterexample :
    ¬ ∃ s, firstToolCallSignature
        (patchThoughtSignature
          ⟨.agent, "", some [⟨"principle_lookup", "q", some ⟨some ⟨some ""⟩⟩⟩]⟩) =
          some (some s) ∧ s ≠ "" := by
  have h0 : firstToolCallSignature
      (patchThoughtSignature
        ⟨.agent, "", some [⟨"principle_lookup", "q", some ⟨some ⟨some ""⟩⟩⟩]⟩) =
      some (some "") := rfl
  rintro ⟨s, hs, hne⟩
  rw [h0] at hs
  simp only [Option.some.injEq] at hs
  exact hne hs.symm

/-- **C10 (amended).** When the model result carries a non-empty tool-call
list, the patch leaves role, content, the remaining tool calls, and the first
call's name and arguments untouched; after it the first call's
`thought_signature` is *present*; it equals the dummy value exactly when the
field was previously nullish, and a previously present value — the empty
string included — is never overwritten. -/
theorem c10_thought_signature_patch (m : Message) (first : ToolCall)
    (rest : List ToolCall) (h : m.tool_calls = some (first :: rest)) :
    (patchThoughtSignature m).role = m.role ∧
      (patchThoughtSignature m).content = m.content ∧
      (patchThoughtSignature m).tool_calls = some (patchToolCall first :: rest) ∧
      (patchToolCall first).name = first.name ∧
      (patchToolCall first).args = first.args ∧
      (firstToolCallSignature (patchThoughtSignature m)).isSome = true ∧
      (((first.extra_content.getD ⟨none⟩).google.getD ⟨none⟩).thought_signature = none →
        firstToolCallSignature (patchThoughtSignature m) =
          some (some dummyThoughtSignature)) ∧
      (∀ s, ((first.extra_content.getD ⟨none⟩).google.getD ⟨none⟩).thought_signature =
          some s →
        firstToolCallSignature (patchThoughtSignature m) = some (some s)) := by
  have hp : patchThoughtSignature m =
      { m with tool_calls := some (patchToolCall first :: rest) } := by
    unfold patchThoughtSignature
    rw [h]
  refine ⟨by rw [hp], by rw [hp], by rw [hp], rfl, rfl, ?_, ?_, ?_⟩
  · rw [hp]
    simp [firstToolCallSignature, patchToolCall]
  · intro habs
    rw [hp]
    simp [firstToolCallSignature, patchToolCall, habs]
  · intro s hpres
    rw [hp]
    simp [firstToolCallSignature, patchToolCall, hpres]

/-- Witness for C10 (amended): a result whose first tool call has no
signature at all. -/
theorem c10_thought_signature_patch_witness :
    (patchThoughtSignature ⟨.agent, "", some [⟨"principle_lookup", "q", none⟩]⟩).role =
        Role.agent ∧
      (patchThoughtSignature ⟨.agent, "", some [⟨"principle_lookup", "q", none⟩]⟩).content =
        "" ∧
      (patchThoughtSignature ⟨.agent, "", some [⟨"principle_lookup", "q", none⟩]⟩).tool_calls =
        some (patchToolCall ⟨"principle_lookup", "q", none⟩ :: []) ∧
      (patchToolCall ⟨"principle_lookup", "q", none⟩).name = "principle_lookup" ∧
      (patchToolCall ⟨"principle_lookup", "q", none⟩).args = "q" ∧
      (firstToolCallSignature
          (patchThoughtSignature ⟨.agent, "", some [⟨"principle_lookup", "q", none⟩]⟩)).isSome =
        true ∧
      ((((⟨"principle_lookup", "q", none⟩ : ToolCall).extra_content.getD
              ⟨none⟩).google.getD ⟨none⟩).thought_signature = none →
        firstToolCallSignature
            (patchThoughtSignature ⟨.agent, "", some [⟨"principle_lookup", "q", none⟩]⟩) =
          some (some dummyThoughtSignature)) ∧
      (∀ s, (((⟨"principle_lookup", "q", none⟩ : ToolCall).extra_content.getD
              ⟨none⟩).google.getD ⟨none⟩).thought_signature = some s →
        firstToolCallSignature
            (patchThoughtSignature ⟨.agent, "", some [⟨"principle_lookup", "q", none⟩]⟩) =
          some (some s)) :=
  c10_thought_signature_patch ⟨.agent, "", some [⟨"principle_lookup", "q", none⟩]⟩
    ⟨"principle_lookup", "q", none⟩ [] rfl

end TsAgent

namespace TsAgent

/-- Errors the agent runtime can fail with. -/
inductive AgentError where
  | recursionLimitExceeded (step_count : Nat)
  | configurationError (message : String)
deriving DecidableEq, Repr

/-- Modelled from the spec: the LangGraph runtime that executes the compiled
workflow is library code not present in the repository — `callAgent` only
configures it with `recursionLimit: 15`.  Following §4.1, each
`AGENT → TOOLS → AGENT` cycle increments `step_count` and the machine fails
with RecursionLimitExceeded exactly when `step_count` reaches the configured
ceiling before reaching `DONE`.  `fuel` is the number of cycles still
permitted, maintained as `ceiling - step_count`; `respond` is the bound model
and `execTools` the tool node, both appending through the `messages` reducer,
with `shouldContinue` deciding the next node. -/
def runFrom (respond : List Message → Message) (execTools : Message → List Message) :
    Nat → Nat → GraphState → Except AgentError GraphState
  | 0, step_count, _ => .error (.recursionLimitExceeded step_count)
  | fuel + 1, step_count, st =>
      let r := respond st.messages
      let st1 := applyUpdate st [r]
      if shouldContinue st1.messages = some "tools" then
        runFrom respond execTools fuel (step_count + 1) (applyUpdate st1 (execTools r))
      else
        .ok st1

/-- The recursion limit configured in step 11 of `callAgent`
(`src/backend/agent.ts` line 163, `src/unnamed/part_000` line 199). -/
def recursionLimit : Nat := 15

/-- One full agent-loop invocation on a fresh conversation: start from the
inbound user message with step count 0 and the configured ceiling. -/
def runLoop (respond : List Message → Message) (execTools : Message → List Message)
    (query : String) : Except AgentError GraphState :=
  runFrom respond execTools recursionLimit 0 ⟨[⟨.user, query, none⟩]⟩

lemma runFrom_always_tools (respond : List Message → Message)
    (execTools : Message → List Message)
    (halways : ∀ h : List Message, hasPendingToolCalls (respond h) = true) :
    ∀ (fuel step_count : Nat) (st : GraphState),
      runFrom respond execTools fuel step_count st =
        .error (.recursionLimitExceeded (step_count + fuel)) := by
  intro fuel
  induction fuel with
  | zero =>
      intro sc st
      simp [runFrom]
  | succ f ih =>
      intro sc st
      have hlast : (st.messages ++ [respond st.messages]).getLast? =
          some (respond st.messages) := by
        simp [List.getLast?_append]
      have hr : shouldContinue (applyUpdate st [respond st.messages]).messages =
          some "tools" := by
        simp [applyUpdate, messagesReducer, shouldContinue, hlast, halways st.messages]
      simp only [runFrom, hr, if_pos]
      rw [ih]
      rw [Nat.add_assoc, Nat.add_comm 1 f]

/-- **C1.** If the model keeps requesting tools, the loop never runs forever
(the executor is a total function): it fails with RecursionLimitExceeded, and
the step count recorded at failure is exactly the configured ceiling — for a
fresh invocation with the default ceiling 15 the failure is at step count 15,
never earlier and never later. -/
theorem c1_recursion_limit (respond : List Message → Message)
    (execTools : Message → List Message)
    (halways : ∀ h : List Message, hasPendingToolCalls (respond h) = true) :
    (∀ (ceiling : Nat) (st : GraphState),
        runFrom respond execTools ceiling 0 st =
          .error (.recursionLimitExceeded ceiling)) ∧
      ∀ query : String,
        runLoop respond execTools query =
          .error (.recursionLimitExceeded recursionLimit) := by
  constructor
  · intro ceiling st
    have h := runFrom_always_tools respond execTools halways ceiling 0 st
    rwa [Nat.zero_add] at h
  · intro query
    unfold runLoop
    have h := runFrom_always_tools respond execTools halways recursionLimit 0
      ⟨[⟨.user, query, none⟩]⟩
    rwa [Nat.zero_add] at h

/-- Witness for C1: a model that always requests the lookup tool drives a
fresh run into RecursionLimitExceeded at step count 15. -/
theorem c1_recursion_limit_witness :
    runLoop (fun _ => ⟨.agent, "", some [⟨"principle_lookup", "q", none⟩]⟩)
        (fun _ => [⟨.tool, "result", none⟩]) "hello" =
      .error (.recursionLimitExceeded recursionLimit) :=
  (c1_recursion_limit (fun _ => ⟨.agent, "", some [⟨"principle_lookup", "q", none⟩]⟩)
    (fun _ => [⟨.tool, "result", none⟩]) (fun _ => rfl)).2 "hello"

end TsAgent

namespace TsAgent

/-- The process environment variables the two files consult. -/
structure Env where
  GOOGLE_API_KEY : Option String
  MONGODB_ATLAS_URI : Option String
  GEMINI_MODEL : Option String
deriving DecidableEq, Repr

/-- Units of per-invocation work `callAgent` performs once past its guard. -/
inductive Effect where
  | dbAccess (db coll : String)
  | graphInvocation
deriving DecidableEq, Repr

/-- The Gemini `callAgent` (`src/unnamed/part_000` lines 23-208): the
missing-GOOGLE_API_KEY guard is the first statement of each invocation; only
past it does the function touch the database and invoke the compiled graph.
The second component records the per-invocation work performed. -/
def callAgentGemini (env : Env) (respond : List Message → Message)
    (execTools : Message → List Message) (query : String) :
    Except AgentError GraphState × List Effect :=
  if env.GOOGLE_API_KEY.isNone then
    (.error (.configurationError
      "Missing GOOGLE_API_KEY. Set it in backend/.env (this file is gitignored)."), [])
  else
    (runLoop respond execTools query,
      [.dbAccess "frontend_db" "principles", .graphInvocation])

/-- The agent module's top-level (startup-time) configuration checks: the
Gemini agent file performs none — its only credential guard sits inside
`callAgent` and therefore runs per invocation. -/
def agentModuleStartupChecks : List String := []

/-- The seeding script's top-level validation
(`src/backend/database-seed.ts` lines 16-22), which does run at script
startup. -/
def seedStartup (env : Env) : Except AgentError Unit :=
  if env.GOOGLE_API_KEY.isNone then
    .error (.configurationError "Missing GOOGLE_API_KEY. Set it in backend/.env")
  else if env.MONGODB_ATLAS_URI.isNone then
    .error (.configurationError "Missing MONGODB_ATLAS_URI. Set it in backend/.env")
  else
    .ok ()

/-- **C5 counterexample.** In the agent runtime the missing-credential error
is not surfaced at startup: the agent module runs no startup configuration
check at all, and with GOOGLE_API_KEY absent the error is raised inside the
per-request `callAgent` call itself — request processing does begin. -/
theorem c5_counterexample :
    agentModuleStartupChecks = [] ∧
      (callAgentGemini ⟨none, some "mongodb://u", none⟩
          (fun _ => ⟨.agent, "hi", none⟩) (fun _ => []) "q").1 =
        .error (.configurationError
          "Missing GOOGLE_API_KEY. Set it in backend/.env (this file is gitignored).") :=
  ⟨rfl, rfl⟩

/-- **C5 (amended).** With GOOGLE_API_KEY missing, every agent invocation
fails immediately with a configuration error before any per-invocation work
(no database access, no graph invocation), and the seeding script fails with a
configuration error at its startup. -/
theorem c5_config_guard (env : Env) (respond : List Message → Message)
    (execTools : Message → List Message) (query : String)
    (hmissing : env.GOOGLE_API_KEY = none) :
    (callAgentGemini env respond execTools query).1 =
        .error (.configurationError
          "Missing GOOGLE_API_KEY. Set it in backend/.env (this file is gitignored).") ∧
      (callAgentGemini env respond execTools query).2 = [] ∧
      seedStartup env = .error (.configurationError
        "Missing GOOGLE_API_KEY. Set it in backend/.env") := by
  refine ⟨?_, ?_, ?_⟩ <;> simp [callAgentGemini, seedStartup, hmissing]

/-- Witness for C5 (amended) at a concrete environment. -/
theorem c5_config_guard_witness :
    (callAgentGemini ⟨none, some "mongodb://u", none⟩
          (fun _ => ⟨.agent, "hi", none⟩) (fun _ => []) "q").1 =
        .error (.configurationError
          "Missing GOOGLE_API_KEY. Set it in backend/.env (this file is gitignored).") ∧
      (callAgentGemini ⟨none, some "mongodb://u", none⟩
          (fun _ => ⟨.agent, "hi", none⟩) (fun _ => []) "q").2 = [] ∧
      seedStartup ⟨none, some "mongodb://u", none⟩ = .error (.configurationError
        "Missing GOOGLE_API_KEY. Set it in backend/.env") :=
  c5_config_guard ⟨none, some "mongodb://u", none⟩
    (fun _ => ⟨.agent, "hi", none⟩) (fun _ => []) "q" rfl

end TsAgent

namespace TsAgent

/-- A persisted Thread: the checkpoint record kept for one thread id. -/
structure Thread where
  messages : List Message
deriving DecidableEq, Repr

/-- Modelled from the spec: the `MongoDBSaver` checkpointer constructed in
step 9 of `callAgent` is library code not present in the repository; §4.5
gives its contract — `save(thread_id, T)` stores the state under the id
(last-writer-wins) and `load(thread_id)` retrieves it.  The store is a map
from thread ids to Threads. -/
def CheckpointStore : Type := String → Option Thread

/-- `save(thread_id, T)`: point update of the store. -/
def saveThread (store : CheckpointStore) (thread_id : String) (t : Thread) :
    CheckpointStore :=
  fun j => if j = thread_id then some t else store j

/-- `load(thread_id)`. -/
def loadThread (store : CheckpointStore) (thread_id : String) : Option Thread :=
  store thread_id

/-- **C8.** Loading after saving returns the saved state
(`load(save(T)) == T`); saving the same logical state twice leaves the
retrievable state unchanged (save is idempotent); and a later save to the same
id wins (last-writer-wins). -/
theorem c8_checkpoint_round_trip (store : CheckpointStore) (thread_id : String)
    (t t2 : Thread) :
    loadThread (saveThread store thread_id t) thread_id = some t ∧
      saveThread (saveThread store thread_id t) thread_id t =
        saveThread store thread_id t ∧
      loadThread (saveThread (saveThread store thread_id t) thread_id t2) thread_id =
        some t2 := by
  refine ⟨?_, ?_, ?_⟩
  · simp [loadThread, saveThread]
  · funext j
    by_cases h : j = thread_id <;> simp [saveThread, h]
  · simp [loadThread, saveThread]

end TsAgent
